import Mathlib

set_option maxRecDepth 8000

/-! Shallow embedding of the atoms point-cloud image viewer.

The sources are src/main.js together with the GLSL programs of
src/shaders.js (src/unnamed/part_000 is an earlier near-duplicate of
main.js whose updateZoom and onWheel agree verbatim with main.js, so one
embedding covers both).  JavaScript numbers are modelled as rationals.
External math-library functions (Math.sin, Math.cos, Math.sqrt and the
GLSL sin) and the draws of Math.random / Date.now are supplied as oracle
parameters, because no verified claim depends on their concrete values;
every other arithmetic step is translated literally. -/

/-- Configuration constants: the CONFIG object of src/main.js (only the
fields that the embedded operations read).  brightnessSteepness is 4.0 in
the source, a natural number, so the GLSL pow it feeds is modelled as a
monoid power with a natural exponent. -/
structure Config where
  zoomStep : ℚ
  minZoom : ℚ
  zoomDamping : ℚ
  panDamping : ℚ
  planeHeight : ℚ
  texturePlaneFadeStartZoom : ℚ
  texturePlaneFadeEndZoom : ℚ
  zoomThreshold : ℚ
  maxZoomForSizeTransition : ℚ
  displacementAmount : ℚ
  displacementStartZoom : ℚ
  displacementFullZoom : ℚ
  displacementJitterMagnitude : ℚ
  displacementJitterSpeed : ℚ
  brightnessBoost : ℚ
  brightnessBoostStartZoom : ℚ
  brightnessBoostEnabled : Bool
  brightnessSteepness : ℕ
  autoMovementEnabled : Bool
  autoMovementSpeed : ℚ
  autoMovementEdgeThreshold : ℚ
  autoMovementEdgeForce : ℚ
  autoMovementChangeRate : ℚ
  autoZoomEnabled : Bool
  autoZoomSpeed : ℚ
  autoZoomSpeedVariability : ℚ
  autoZoomMinLevel : ℚ
  autoZoomMaxLevel : ℚ
  autoZoomChangeRate : ℚ
deriving DecidableEq

/-- The concrete CONFIG values of src/main.js. -/
def CONFIG : Config where
  zoomStep := 0.02
  minZoom := 0.1
  zoomDamping := 0.05
  panDamping := 0.85
  planeHeight := 2
  texturePlaneFadeStartZoom := 4.0
  texturePlaneFadeEndZoom := 12.0
  zoomThreshold := 1.0
  maxZoomForSizeTransition := 5.0
  displacementAmount := 0.005
  displacementStartZoom := 5.0
  displacementFullZoom := 1000.0
  displacementJitterMagnitude := 0.8
  displacementJitterSpeed := 1.0
  brightnessBoost := -0.05
  brightnessBoostStartZoom := 10.0
  brightnessBoostEnabled := true
  brightnessSteepness := 4
  autoMovementEnabled := true
  autoMovementSpeed := 0.004
  autoMovementEdgeThreshold := 0.15
  autoMovementEdgeForce := 0.05
  autoMovementChangeRate := 0.0005
  autoZoomEnabled := true
  autoZoomSpeed := 0.015
  autoZoomSpeedVariability := 0.2
  autoZoomMinLevel := 1.0
  autoZoomMaxLevel := 80.0
  autoZoomChangeRate := 0.001

/-- The mutable module-level state of src/main.js that the camera
operations read and write: camera zoom/position and frustum, the zoom and
pan targets and velocities, the drag flag and last mouse position, and the
auto-navigation state.  The camera depth and orientation, re-pinned every
frame by enforceCameraOrientation, are constants and are not tracked. -/
structure CamState where
  zoom : ℚ
  targetZoom : ℚ
  zoomVelocity : ℚ
  posX : ℚ
  posY : ℚ
  targetX : ℚ
  targetY : ℚ
  panVX : ℚ
  panVY : ℚ
  isDragging : Bool
  lastMouseX : ℚ
  lastMouseY : ℚ
  autoMoveX : ℚ
  autoMoveY : ℚ
  targetAutoMoveX : ℚ
  targetAutoMoveY : ℚ
  autoZoomDirection : ℚ
  targetAutoZoomDirection : ℚ
  autoZoomVelocity : ℚ
  lastAutoZoomTime : ℚ
  camLeft : ℚ
  camRight : ℚ
  camTop : ℚ
  camBottom : ℚ
deriving DecidableEq

/-- Ambient data fixed during a run: the window dimensions, the plane
width calculated at load time, and the external math functions. -/
structure Env where
  innerWidth : ℚ
  innerHeight : ℚ
  calculatedPlaneWidth : ℚ
  sinQ : ℚ → ℚ
  cosQ : ℚ → ℚ
  sqrtQ : ℚ → ℚ

/-- Oracle for one animation frame: the Math.random draws consumed by
updateAutoMovement (the change test and the fresh direction angle) and by
updateAutoZoom (the flip test), and the Date.now reading of the frame. -/
structure FrameOracle where
  moveRand : ℚ
  moveAngle : ℚ
  zoomRand : ℚ
  now : ℚ

/-- Math.sign. -/
def mathSign (x : ℚ) : ℚ :=
  if 0 < x then 1 else if x < 0 then -1 else 0

/-- The targetZoom produced by one updateZoom tick (main.js lines
356-365): while the velocity is above the 0.0001 threshold it is
integrated into targetZoom, which is clamped below at minZoom. -/
def updateZoomTZ (s : CamState) : ℚ :=
  if 0.0001 < |s.zoomVelocity| then
    if s.targetZoom + s.zoomVelocity < CONFIG.minZoom then CONFIG.minZoom
    else s.targetZoom + s.zoomVelocity
  else s.targetZoom

/-- The zoomVelocity produced by one updateZoom tick: zeroed when the
clamp fires or when it is already below the threshold, decayed by
zoomDamping otherwise. -/
def updateZoomZV (s : CamState) : ℚ :=
  if 0.0001 < |s.zoomVelocity| then
    (if s.targetZoom + s.zoomVelocity < CONFIG.minZoom then 0 else s.zoomVelocity)
      * CONFIG.zoomDamping
  else 0

/-- updateZoom of main.js: momentum zoom integration, clamped blend of
zoom toward targetZoom, and blend of position toward targetPosition. -/
def updateZoom (s : CamState) : CamState :=
  let tz := updateZoomTZ s
  { s with
      targetZoom := tz
      zoomVelocity := updateZoomZV s
      zoom := max CONFIG.minZoom (s.zoom + (tz - s.zoom) * 0.2)
      posX := s.posX + (s.targetX - s.posX) * 0.2
      posY := s.posY + (s.targetY - s.posY) * 0.2 }

/-- updatePan of main.js: post-release pan momentum. -/
def updatePan (s : CamState) : CamState :=
  if s.isDragging = false ∧ (0.00001 < |s.panVX| ∨ 0.00001 < |s.panVY|) then
    { s with
        targetX := s.targetX + s.panVX
        targetY := s.targetY + s.panVY
        panVX := s.panVX * CONFIG.panDamping
        panVY := s.panVY * CONFIG.panDamping }
  else if s.isDragging = false then
    { s with panVX := 0, panVY := 0 }
  else s

/-- updateAutoMovement of main.js: random drift direction with smoothing,
edge avoidance against the plane bounds, renormalisation, and a
zoom-scaled contribution to targetPosition.  The cosine/sine of the
randomly drawn angle come from the environment's math oracle. -/
def updateAutoMovement (env : Env) (o : FrameOracle) (s : CamState) : CamState :=
  if !CONFIG.autoMovementEnabled || s.isDragging then s else
  let target :=
    if o.moveRand < CONFIG.autoMovementChangeRate then
      (env.cosQ o.moveAngle, env.sinQ o.moveAngle)
    else (s.targetAutoMoveX, s.targetAutoMoveY)
  let avX0 := s.autoMoveX + (target.1 - s.autoMoveX) * 0.1
  let avY0 := s.autoMoveY + (target.2 - s.autoMoveY) * 0.1
  let visibleWidth := (s.camRight - s.camLeft) / s.zoom
  let visibleHeight := (s.camTop - s.camBottom) / s.zoom
  let maxX := env.calculatedPlaneWidth / 2 - visibleWidth * CONFIG.autoMovementEdgeThreshold
  let minX := -env.calculatedPlaneWidth / 2 + visibleWidth * CONFIG.autoMovementEdgeThreshold
  let maxY := CONFIG.planeHeight / 2 - visibleHeight * CONFIG.autoMovementEdgeThreshold
  let minY := -CONFIG.planeHeight / 2 + visibleHeight * CONFIG.autoMovementEdgeThreshold
  let edgeMomentumFactor := CONFIG.autoMovementEdgeForce * 2
  let avX1 := if maxX < s.posX then avX0 - edgeMomentumFactor * (s.posX - maxX) else avX0
  let avX2 := if s.posX < minX then avX1 + edgeMomentumFactor * (minX - s.posX) else avX1
  let avY1 := if maxY < s.posY then avY0 - edgeMomentumFactor * (s.posY - maxY) else avY0
  let avY2 := if s.posY < minY then avY1 + edgeMomentumFactor * (minY - s.posY) else avY1
  let length := env.sqrtQ (avX2 * avX2 + avY2 * avY2)
  let avX3 := if 0 < length then avX2 / length else avX2
  let avY3 := if 0 < length then avY2 / length else avY2
  let scaledSpeed := CONFIG.autoMovementSpeed / s.zoom
  { s with
      autoMoveX := avX3
      autoMoveY := avY3
      targetAutoMoveX := target.1
      targetAutoMoveY := target.2
      targetX := s.targetX + avX3 * scaledSpeed
      targetY := s.targetY + avY3 * scaledSpeed }

/-- The targetAutoZoomDirection after the random-flip step of
updateAutoZoom (main.js lines 449-451). -/
def azRandTarget (o : FrameOracle) (s : CamState) : ℚ :=
  if o.zoomRand < CONFIG.autoZoomChangeRate then -s.targetAutoZoomDirection
  else s.targetAutoZoomDirection

/-- The smoothed autoZoomDirection of updateAutoZoom (main.js line 455),
interpolated one tenth of the way toward the random-flip target. -/
def azSmoothedDir (o : FrameOracle) (s : CamState) : ℚ :=
  s.autoZoomDirection + (azRandTarget o s - s.autoZoomDirection) * 0.1

/-- updateAutoZoom of main.js: random direction flips with smoothing, a
forced flip at the auto-zoom bounds, a time-and-zoom scaled velocity, and
targetZoom integration clamped to the auto-zoom bounds.  The three
Date.now() readings of one call are modelled by the single oracle value
o.now. -/
def updateAutoZoom (env : Env) (o : FrameOracle) (s : CamState) : CamState :=
  if !CONFIG.autoZoomEnabled || s.isDragging then s else
  let tDir1 := azRandTarget o s
  let dir := azSmoothedDir o s
  let tDir2 :=
    if (CONFIG.autoZoomMaxLevel ≤ s.zoom ∧ 0 < dir) ∨
       (s.zoom ≤ CONFIG.autoZoomMinLevel ∧ dir < 0) then -tDir1 else tDir1
  let timeDelta := (o.now - s.lastAutoZoomTime) / 1000
  let zoomVariability := 1 + env.sinQ (o.now * 0.001) * CONFIG.autoZoomSpeedVariability
  let normalizedZoomSpeed := CONFIG.autoZoomSpeed * zoomVariability / s.zoom
  let variableZoomSpeed := normalizedZoomSpeed * timeDelta * 60
  let azv := dir * variableZoomSpeed
  let tz := s.targetZoom + azv
  { s with
      targetAutoZoomDirection := tDir2
      autoZoomDirection := dir
      autoZoomVelocity := azv
      lastAutoZoomTime := o.now
      targetZoom := max CONFIG.autoZoomMinLevel (min CONFIG.autoZoomMaxLevel tz) }

/-- The world-space x coordinate under the wheel cursor (onWheel,
main.js lines 287-294). -/
def wheelMouseWorldX (env : Env) (clientX : ℚ) (s : CamState) : ℚ :=
  let ndcX := (clientX / env.innerWidth) * 2 - 1
  ndcX * (s.camRight - s.camLeft) / 2 / s.zoom + s.posX

/-- The world-space y coordinate under the wheel cursor. -/
def wheelMouseWorldY (env : Env) (clientY : ℚ) (s : CamState) : ℚ :=
  let ndcY := -(clientY / env.innerHeight) * 2 + 1
  ndcY * (s.camTop - s.camBottom) / 2 / s.zoom + s.posY

/-- onWheel of main.js: adds a zoom-proportional impulse to zoomVelocity
and shifts targetPosition toward the cursor's world point. -/
def onWheel (env : Env) (clientX clientY deltaY : ℚ) (s : CamState) : CamState :=
  let direction := mathSign (-deltaY)
  let zoomFactor := direction * CONFIG.zoomStep
  { s with
      zoomVelocity := s.zoomVelocity + direction * CONFIG.zoomStep * s.zoom
      targetX := s.targetX + zoomFactor * (wheelMouseWorldX env clientX s - s.posX)
      targetY := s.targetY + zoomFactor * (wheelMouseWorldY env clientY s - s.posY) }

/-- onMouseDown of main.js. -/
def onMouseDown (clientX clientY : ℚ) (s : CamState) : CamState :=
  { s with
      isDragging := true
      lastMouseX := clientX
      lastMouseY := clientY
      panVX := 0
      panVY := 0 }

/-- onMouseUp of main.js. -/
def onMouseUp (s : CamState) : CamState :=
  { s with isDragging := false }

/-- onMouseMove of main.js: while dragging, pans camera position and
target together and records the pan velocity. -/
def onMouseMove (env : Env) (clientX clientY : ℚ) (s : CamState) : CamState :=
  if !s.isDragging then s else
  let dx := (clientX - s.lastMouseX) / env.innerWidth
  let dy := (clientY - s.lastMouseY) / env.innerHeight
  let panX := -dx * (s.camRight - s.camLeft) / s.zoom
  let panY := dy * (s.camTop - s.camBottom) / s.zoom
  { s with
      posX := s.posX + panX
      posY := s.posY + panY
      targetX := s.posX + panX
      targetY := s.posY + panY
      panVX := panX
      panVY := panY
      lastMouseX := clientX
      lastMouseY := clientY }

/-- The per-frame camera tick of animate (main.js lines 484-488):
updateZoom, updatePan, updateAutoMovement, updateAutoZoom, in the order
the source calls them.  enforceCameraOrientation only re-pins untracked
constants (depth, look-at, up vector) and is the identity here. -/
def animateTick (env : Env) (o : FrameOracle) (s : CamState) : CamState :=
  updateAutoZoom env o (updateAutoMovement env o (updatePan (updateZoom s)))

/-- One externally triggered event: a wheel or drag input, or a frame. -/
inductive Ev where
  | wheel (clientX clientY deltaY : ℚ)
  | mouseDown (clientX clientY : ℚ)
  | mouseUp
  | mouseMove (clientX clientY : ℚ)
  | frame (o : FrameOracle)

/-- Dispatch one event to its handler. -/
def stepEv (env : Env) (s : CamState) (e : Ev) : CamState :=
  match e with
  | .wheel cx cy dy => onWheel env cx cy dy s
  | .mouseDown cx cy => onMouseDown cx cy s
  | .mouseUp => onMouseUp s
  | .mouseMove cx cy => onMouseMove env cx cy s
  | .frame o => animateTick env o s

/-- Run a sequence of events in order. -/
def runEvents (env : Env) (evs : List Ev) (s : CamState) : CamState :=
  evs.foldl (stepEv env) s

/-- True when the event list contains at least one frame tick. -/
def hasFrame : List Ev → Bool
  | [] => false
  | Ev.frame _ :: _ => true
  | _ :: rest => hasFrame rest

/-- The uniform set of the vertex shader of src/shaders.js (the unused
displacementHalfwayZoom uniform is omitted; brightnessSteepness, set to
4.0 by the source, is the natural exponent of the GLSL pow). -/
structure Uniforms where
  basePointSize : ℚ
  brightnessMultiplier : ℚ
  minPointSize : ℚ
  displacementAmount : ℚ
  seed : ℚ
  cameraZoom : ℚ
  screenWidth : ℚ
  screenHeight : ℚ
  imageWidth : ℚ
  imageHeight : ℚ
  planeWidth : ℚ
  planeHeight : ℚ
  zoomThreshold : ℚ
  maxZoomForSizeTransition : ℚ
  displacementStartZoom : ℚ
  displacementFullZoom : ℚ
  time : ℚ
  displacementJitterMagnitude : ℚ
  displacementJitterSpeed : ℚ
  brightnessBoost : ℚ
  brightnessSteepness : ℕ
deriving DecidableEq

/-- A world-space point. -/
structure Vec3 where
  x : ℚ
  y : ℚ
  z : ℚ
deriving DecidableEq

/-- GLSL fract: x minus its floor. -/
def glslFract (x : ℚ) : ℚ := x - ⌊x⌋

/-- GLSL clamp(x, lo, hi) = min(max(x, lo), hi). -/
def glslClamp (x lo hi : ℚ) : ℚ := min (max x lo) hi

/-- GLSL mix(x, y, a) = x·(1−a) + y·a. -/
def glslMix (x y a : ℚ) : ℚ := x * (1 - a) + y * a

/-- The pseudo-random hash of the vertex shader:
fract(sin(dot(st, vec2(12.9898, 78.233)) + seed) * 43758.5453123),
with the GLSL sin supplied as a function parameter. -/
def random (sinQ : ℚ → ℚ) (seed : ℚ) (st : ℚ × ℚ) : ℚ :=
  glslFract (sinQ (st.1 * 12.9898 + st.2 * 78.233 + seed) * 43758.5453123)

/-- The brightness (luminance) of a sampled color, vertex shader line 38. -/
def shaderBrightness (r g b : ℚ) : ℚ := r * 0.299 + g * 0.587 + b * 0.114

/-- The white-blend impact of the vertex shader (lines 41-46): the
brightnessBoost uniform clamped into [0,1], scaled by darkness to the
brightnessSteepness power. -/
def shaderImpact (u : Uniforms) (r g b : ℚ) : ℚ :=
  let brightness := shaderBrightness r g b
  let brightenFactor := glslClamp u.brightnessBoost 0 1
  let darkness := 1 - brightness
  darkness ^ u.brightnessSteepness * brightenFactor

/-- The color after the toward-white blend of vertex shader line 49. -/
def shaderBlendedColor (u : Uniforms) (r g b : ℚ) : ℚ × ℚ × ℚ :=
  (glslMix r 1 (shaderImpact u r g b),
   glslMix g 1 (shaderImpact u r g b),
   glslMix b 1 (shaderImpact u r g b))

/-- The total point count of the mesh, vertex shader line 52. -/
def totalPoints (u : Uniforms) : ℚ := u.imageWidth * u.imageHeight

/-- The visible-pixel estimate of vertex shader line 55. -/
def visiblePixels (u : Uniforms) : ℚ :=
  u.planeWidth * u.planeHeight * u.cameraZoom * u.cameraZoom
    * u.screenWidth * u.screenHeight / 4

/-- The sampling rate of vertex shader line 58. -/
def samplingRate (u : Uniforms) : ℚ :=
  min 1 (visiblePixels u / totalPoints u)

/-- The deterministic per-point value of vertex shader line 61. -/
def pointId (sinQ : ℚ → ℚ) (u : Uniforms) (uv : ℚ × ℚ) : ℚ :=
  random sinQ u.seed uv

/-- The visibility decision of vertex shader line 64: the point is moved
off screen exactly when its hash value exceeds the sampling rate. -/
def pointDiscarded (sinQ : ℚ → ℚ) (u : Uniforms) (uv : ℚ × ℚ) : Bool :=
  decide (samplingRate u < pointId sinQ u uv)

/-- The displacement factor of vertex shader lines 74-77. -/
def displacementFactor (u : Uniforms) : ℚ :=
  glslClamp
    ((u.cameraZoom - u.displacementStartZoom)
      / (u.displacementFullZoom - u.displacementStartZoom)) 0 1

/-- The x displacement direction of vertex shader line 93. -/
def dispRandX (sinQ : ℚ → ℚ) (u : Uniforms) (p : ℚ × ℚ) : ℚ :=
  random sinQ u.seed (p.1 + 0.1, p.2 + 0.3) * 2 - 1

/-- The y displacement direction of vertex shader line 94. -/
def dispRandY (sinQ : ℚ → ℚ) (u : Uniforms) (p : ℚ × ℚ) : ℚ :=
  random sinQ u.seed (p.1 + 0.6, p.2 + 0.9) * 2 - 1

/-- The per-point jitter phase of vertex shader line 102. -/
def jitterPhase (sinQ : ℚ → ℚ) (u : Uniforms) (p : ℚ × ℚ) : ℚ :=
  random sinQ u.seed (p.1, p.2) * 2 * 3.1415926535

/-- The displaced world position of vertex shader lines 97-109: the
jittered displacement is added to x and y, with a zero z component. -/
def displacedPosition (sinQ : ℚ → ℚ) (u : Uniforms) (p : Vec3) : Vec3 :=
  let randX := dispRandX sinQ u (p.x, p.y)
  let randY := dispRandY sinQ u (p.x, p.y)
  let scaledDisplacement := u.displacementAmount * displacementFactor u * 5
  let displacementOscillation :=
    1 + sinQ (u.time * u.displacementJitterSpeed + jitterPhase sinQ u (p.x, p.y))
          * u.displacementJitterMagnitude
  let finalScaledDisplacement :=
    scaledDisplacement * (if 0 < displacementFactor u then displacementOscillation else 1)
  ⟨p.x + randX * finalScaledDisplacement, p.y + randY * finalScaledDisplacement, p.z + 0⟩

/-- The texel-center UV of sample (ix, iy), from the loadImage loop of
main.js lines 201-210. -/
def sampleUv (imgW imgH : ℚ) (ix iy : ℕ) : ℚ × ℚ :=
  ((ix + 0.5) / imgW, (iy + 0.5) / imgH)

/-- The world position of sample (ix, iy), from the loadImage loop: the
plane lies in z = 0. -/
def samplePosition (imgW imgH planeW : ℚ) (ix iy : ℕ) : Vec3 :=
  let u := ((ix : ℚ) + 0.5) / imgW
  let v := ((iy : ℚ) + 0.5) / imgH
  ⟨(u - 0.5) * planeW, (v - 0.5) * CONFIG.planeHeight, 0⟩

/-- The CPU-side brightness boost ramp of animate (main.js lines
505-510): zero at or below the start zoom, otherwise the linear ramp
toward maxZoomForSizeTransition capped at one by min. -/
def boostFactor (zoom : ℚ) : ℚ :=
  if CONFIG.brightnessBoostStartZoom < zoom then
    min 1 ((zoom - CONFIG.brightnessBoostStartZoom)
      / (CONFIG.maxZoomForSizeTransition - CONFIG.brightnessBoostStartZoom))
  else 0

/-- The brightnessBoost uniform value pushed each frame (main.js lines
511-513). -/
def brightnessBoostValue (zoom : ℚ) : ℚ :=
  if CONFIG.brightnessBoostEnabled then CONFIG.brightnessBoost * boostFactor zoom else 0

/-- The overlay plane update of animate (main.js lines 516-535): the
computed opacity and visibility flag as a pair. -/
def overlayPlaneUpdate (zoom : ℚ) : ℚ × Bool :=
  let startFade := CONFIG.texturePlaneFadeStartZoom
  let endFade := CONFIG.texturePlaneFadeEndZoom
  if zoom < startFade then (1, true)
  else if endFade < zoom then (0, false)
  else
    let opacity := 1 - (zoom - startFade) / (endFade - startFade)
    let op := max 0 (min 1 opacity)
    (op, decide (0.001 < op))

/-- The initial camera state of the end-to-end zoom scenario of the
specification: zoom and targetZoom 1.0, zoomVelocity +0.02, everything
else as set up by setupCamera and initializeAutoZoom with a unit window. -/
def c5Init : CamState where
  zoom := 1
  targetZoom := 1
  zoomVelocity := 0.02
  posX := 0
  posY := 0
  targetX := 0
  targetY := 0
  panVX := 0
  panVY := 0
  isDragging := false
  lastMouseX := 0
  lastMouseY := 0
  autoMoveX := 1
  autoMoveY := 0
  targetAutoMoveX := 1
  targetAutoMoveY := 0
  autoZoomDirection := 1
  targetAutoZoomDirection := 1
  autoZoomVelocity := 0
  lastAutoZoomTime := 0
  camLeft := -1
  camRight := 1
  camTop := 1
  camBottom := -1

/-- The state after n consecutive updateZoom ticks from c5Init. -/
def zoomTraj : ℕ → CamState
  | 0 => c5Init
  | n + 1 => updateZoom (zoomTraj n)

/-- A concrete environment used to instantiate proved theorems. -/
def testEnv : Env where
  innerWidth := 2
  innerHeight := 2
  calculatedPlaneWidth := 1
  sinQ := fun _ => 0
  cosQ := fun _ => 0
  sqrtQ := fun _ => 0

/-- A concrete frame oracle used to instantiate proved theorems. -/
def testOracle : FrameOracle where
  moveRand := 1
  moveAngle := 0
  zoomRand := 1
  now := 0

/-- A concrete camera state used to instantiate proved theorems. -/
def testState : CamState :=
  { c5Init with zoomVelocity := 0 }

/-- A concrete uniform assignment used to instantiate proved theorems. -/
def testUniforms : Uniforms where
  basePointSize := 1
  brightnessMultiplier := 1
  minPointSize := 1
  displacementAmount := 1
  seed := 0
  cameraZoom := 2
  screenWidth := 1
  screenHeight := 1
  imageWidth := 1
  imageHeight := 1
  planeWidth := 1
  planeHeight := 1
  zoomThreshold := 1
  maxZoomForSizeTransition := 5
  displacementStartZoom := 5
  displacementFullZoom := 1000
  time := 0
  displacementJitterMagnitude := 0.8
  displacementJitterSpeed := 1
  brightnessBoost := 0
  brightnessSteepness := 4

/-- The uniform assignment at zoom 210 (boost value 2) used for the C2
scenario: the brightnessBoost uniform holds the CPU-computed value. -/
def boostCounterUniforms : Uniforms :=
  { testUniforms with cameraZoom := 210, brightnessBoost := brightnessBoostValue 210 }

/-- The uniform assignment at zoom 2 used for the amended C2 scenario. -/
def boostWitnessUniforms : Uniforms :=
  { testUniforms with cameraZoom := 2, brightnessBoost := brightnessBoostValue 2 }

/-- updateZoom never produces a zoom below minZoom: the blended zoom is
clamped by Math.max. -/
theorem updateZoom_zoom_ge (s : CamState) : CONFIG.minZoom ≤ (updateZoom s).zoom :=
  le_max_left _ _

/-- updatePan does not write the zoom. -/
theorem updatePan_zoom (s : CamState) : (updatePan s).zoom = s.zoom := by
  unfold updatePan
  split
  · rfl
  · split
    · rfl
    · rfl

/-- updateAutoMovement does not write the zoom. -/
theorem updateAutoMovement_zoom (env : Env) (o : FrameOracle) (s : CamState) :
    (updateAutoMovement env o s).zoom = s.zoom := by
  unfold updateAutoMovement
  split
  · rfl
  · rfl

/-- updateAutoZoom does not write the zoom. -/
theorem updateAutoZoom_zoom (env : Env) (o : FrameOracle) (s : CamState) :
    (updateAutoZoom env o s).zoom = s.zoom := by
  unfold updateAutoZoom
  split
  · rfl
  · rfl

/-- After a full frame tick the zoom is at least minZoom. -/
theorem animateTick_zoom_ge (env : Env) (o : FrameOracle) (s : CamState) :
    CONFIG.minZoom ≤ (animateTick env o s).zoom := by
  unfold animateTick
  rw [updateAutoZoom_zoom, updateAutoMovement_zoom, updatePan_zoom]
  exact updateZoom_zoom_ge s

/-- onMouseMove does not write the zoom. -/
theorem onMouseMove_zoom (env : Env) (cx cy : ℚ) (s : CamState) :
    (onMouseMove env cx cy s).zoom = s.zoom := by
  unfold onMouseMove
  split
  · rfl
  · rfl

/-- Every event keeps the zoom at or above minZoom once it is there. -/
theorem stepEv_zoom_ge (env : Env) (e : Ev) (s : CamState)
    (h : CONFIG.minZoom ≤ s.zoom) : CONFIG.minZoom ≤ (stepEv env s e).zoom := by
  cases e with
  | wheel cx cy dy => exact h
  | mouseDown cx cy => exact h
  | mouseUp => exact h
  | mouseMove cx cy => rw [stepEv, onMouseMove_zoom]; exact h
  | frame o => exact animateTick_zoom_ge env o s

/-- Running any events keeps the zoom at or above minZoom once it is
there. -/
theorem runEvents_zoom_ge (env : Env) (evs : List Ev) (s : CamState)
    (h : CONFIG.minZoom ≤ s.zoom) : CONFIG.minZoom ≤ (runEvents env evs s).zoom := by
  induction evs generalizing s with
  | nil => exact h
  | cons e rest ih => exact ih _ (stepEv_zoom_ge env e s h)

/-- After any event sequence containing a frame tick, zoom ≥ minZoom. -/
theorem zoom_ge_after_frame (env : Env) (evs : List Ev) :
    ∀ s : CamState, hasFrame evs = true → CONFIG.minZoom ≤ (runEvents env evs s).zoom := by
  induction evs with
  | nil => intro s h; simp [hasFrame] at h
  | cons e rest ih =>
    intro s h
    cases e with
    | frame o => exact runEvents_zoom_ge env rest _ (animateTick_zoom_ge env o s)
    | wheel cx cy dy => exact ih _ h
    | mouseDown cx cy => exact ih _ h
    | mouseUp => exact ih _ h
    | mouseMove cx cy => exact ih _ h

/-- Claim C1: for every sequence of per-frame ticks (updateZoom,
updatePan, updateAutoMovement, updateAutoZoom) and any interleaved
wheel/drag inputs, zoom ≥ minZoom holds at every point after a tick;
moreover updateZoom clamps targetZoom at minZoom, zeroing zoomVelocity
when the clamp fires, and clamps the blended zoom at minZoom. -/
theorem zoom_min_invariant (env : Env) (s : CamState) (evs : List Ev)
    (h : hasFrame evs = true) :
    CONFIG.minZoom ≤ (runEvents env evs s).zoom
    ∧ (∀ t : CamState, 0.0001 < |t.zoomVelocity| →
        t.targetZoom + t.zoomVelocity < CONFIG.minZoom →
        (updateZoom t).targetZoom = CONFIG.minZoom ∧ (updateZoom t).zoomVelocity = 0)
    ∧ (∀ t : CamState,
        (updateZoom t).zoom
          = max CONFIG.minZoom (t.zoom + ((updateZoom t).targetZoom - t.zoom) * 0.2)) := by
  refine ⟨zoom_ge_after_frame env evs s h, fun t h1 h2 => ⟨?_, ?_⟩, fun t => rfl⟩
  · show updateZoomTZ t = CONFIG.minZoom
    unfold updateZoomTZ
    rw [if_pos h1, if_pos h2]
  · show updateZoomZV t = 0
    unfold updateZoomZV
    rw [if_pos h1, if_pos h2, zero_mul]

/-- Witness for claim C1 at a concrete single-frame trace. -/
theorem zoom_min_invariant_witness :
    hasFrame [Ev.frame testOracle] = true
    ∧ CONFIG.minZoom ≤ (runEvents testEnv [Ev.frame testOracle] testState).zoom :=
  ⟨rfl, (zoom_min_invariant testEnv testState [Ev.frame testOracle] rfl).1⟩

unseal Rat.add Rat.mul Rat.inv Rat.ofScientific Rat.sub in
/-- Claim C5: from zoom = targetZoom = 1.0 with zoomVelocity +0.02,
damping 0.05 and minZoom 0.1, fifty updateZoom ticks produce a zoom
sequence that is monotonically non-decreasing, never below minZoom,
with velocity zero and targetZoom frozen once the velocity has fallen
below the 0.0001 threshold (from the third tick on), and a final zoom
strictly greater than 1.0. -/
theorem fifty_tick_zoom_run :
    (∀ k, k < 50 → (zoomTraj k).zoom ≤ (zoomTraj (k + 1)).zoom)
    ∧ (∀ k, k < 51 → CONFIG.minZoom ≤ (zoomTraj k).zoom)
    ∧ (∀ k, k < 48 → (zoomTraj (k + 3)).zoomVelocity = 0)
    ∧ (∀ k, k < 49 → (zoomTraj (k + 2)).targetZoom = (zoomTraj 2).targetZoom)
    ∧ 1 < (zoomTraj 50).zoom := by
  refine ⟨by decide, by decide, by decide, by decide, by decide⟩

unseal Rat.add Rat.mul Rat.inv Rat.ofScientific Rat.sub in
/-- Witness for claim C5 at concrete tick indices. -/
theorem fifty_tick_zoom_run_witness :
    ((3 : ℕ) < 50 ∧ (zoomTraj 3).zoom ≤ (zoomTraj 4).zoom)
    ∧ ((0 : ℕ) < 48 ∧ (zoomTraj 3).zoomVelocity = 0)
    ∧ 1 < (zoomTraj 50).zoom :=
  ⟨⟨by decide, fifty_tick_zoom_run.1 3 (by decide)⟩,
   ⟨by decide, fifty_tick_zoom_run.2.2.1 0 (by decide)⟩,
   fifty_tick_zoom_run.2.2.2.2⟩

/-- Claim C4: a wheel event with deltaY < 0 whose cursor sits at the
exact screen center leaves targetPosition unchanged; in general it moves
targetPosition by the positive multiple zoomStep of the vector from the
camera position to the cursor's world position, adds
direction·zoomStep·zoom (direction = 1 for deltaY < 0) to zoomVelocity,
and writes no other state. -/
theorem wheel_zoom_in_effect (env : Env) (clientX clientY deltaY : ℚ) (s : CamState)
    (hdy : deltaY < 0) :
    (env.innerWidth ≠ 0 → env.innerHeight ≠ 0 →
      clientX = env.innerWidth / 2 → clientY = env.innerHeight / 2 →
      (onWheel env clientX clientY deltaY s).targetX = s.targetX
      ∧ (onWheel env clientX clientY deltaY s).targetY = s.targetY)
    ∧ (0 < CONFIG.zoomStep
       ∧ (onWheel env clientX clientY deltaY s).targetX - s.targetX
           = CONFIG.zoomStep * (wheelMouseWorldX env clientX s - s.posX)
       ∧ (onWheel env clientX clientY deltaY s).targetY - s.targetY
           = CONFIG.zoomStep * (wheelMouseWorldY env clientY s - s.posY))
    ∧ (onWheel env clientX clientY deltaY s).zoomVelocity
        = s.zoomVelocity + CONFIG.zoomStep * s.zoom
    ∧ (onWheel env clientX clientY deltaY s).zoom = s.zoom
    ∧ (onWheel env clientX clientY deltaY s).targetZoom = s.targetZoom
    ∧ (onWheel env clientX clientY deltaY s).posX = s.posX
    ∧ (onWheel env clientX clientY deltaY s).posY = s.posY
    ∧ (onWheel env clientX clientY deltaY s).panVX = s.panVX
    ∧ (onWheel env clientX clientY deltaY s).panVY = s.panVY
    ∧ (onWheel env clientX clientY deltaY s).isDragging = s.isDragging
    ∧ (onWheel env clientX clientY deltaY s).lastMouseX = s.lastMouseX
    ∧ (onWheel env clientX clientY deltaY s).lastMouseY = s.lastMouseY
    ∧ (onWheel env clientX clientY deltaY s).autoMoveX = s.autoMoveX
    ∧ (onWheel env clientX clientY deltaY s).autoMoveY = s.autoMoveY
    ∧ (onWheel env clientX clientY deltaY s).targetAutoMoveX = s.targetAutoMoveX
    ∧ (onWheel env clientX clientY deltaY s).targetAutoMoveY = s.targetAutoMoveY
    ∧ (onWheel env clientX clientY deltaY s).autoZoomDirection = s.autoZoomDirection
    ∧ (onWheel env clientX clientY deltaY s).targetAutoZoomDirection = s.targetAutoZoomDirection
    ∧ (onWheel env clientX clientY deltaY s).autoZoomVelocity = s.autoZoomVelocity
    ∧ (onWheel env clientX clientY deltaY s).lastAutoZoomTime = s.lastAutoZoomTime
    ∧ (onWheel env clientX clientY deltaY s).camLeft = s.camLeft
    ∧ (onWheel env clientX clientY deltaY s).camRight = s.camRight
    ∧ (onWheel env clientX clientY deltaY s).camTop = s.camTop
    ∧ (onWheel env clientX clientY deltaY s).camBottom = s.camBottom := by
  have h1 : mathSign (-deltaY) = 1 := by
    unfold mathSign
    rw [if_pos (by linarith)]
  refine ⟨?_, ⟨by norm_num [CONFIG], ?_, ?_⟩, ?_, rfl, rfl, rfl, rfl, rfl, rfl, rfl,
    rfl, rfl, rfl, rfl, rfl, rfl, rfl, rfl, rfl, rfl, rfl, rfl, rfl, rfl⟩
  · intro hW hH hx hy
    have hndcx : clientX / env.innerWidth * 2 - 1 = 0 := by
      rw [hx]
      field_simp
      ring
    have hndcy : -(clientY / env.innerHeight) * 2 + 1 = 0 := by
      rw [hy]
      field_simp
      ring
    constructor
    · show s.targetX + mathSign (-deltaY) * CONFIG.zoomStep
            * (wheelMouseWorldX env clientX s - s.posX) = s.targetX
      unfold wheelMouseWorldX
      rw [hndcx]
      ring
    · show s.targetY + mathSign (-deltaY) * CONFIG.zoomStep
            * (wheelMouseWorldY env clientY s - s.posY) = s.targetY
      unfold wheelMouseWorldY
      rw [hndcy]
      ring
  · show s.targetX + mathSign (-deltaY) * CONFIG.zoomStep
          * (wheelMouseWorldX env clientX s - s.posX) - s.targetX
        = CONFIG.zoomStep * (wheelMouseWorldX env clientX s - s.posX)
    rw [h1]
    ring
  · show s.targetY + mathSign (-deltaY) * CONFIG.zoomStep
          * (wheelMouseWorldY env clientY s - s.posY) - s.targetY
        = CONFIG.zoomStep * (wheelMouseWorldY env clientY s - s.posY)
    rw [h1]
    ring
  · show s.zoomVelocity + mathSign (-deltaY) * CONFIG.zoomStep * s.zoom
        = s.zoomVelocity + CONFIG.zoomStep * s.zoom
    rw [h1]
    ring

/-- Witness for claim C4: a center wheel-in event on a 2×2 window. -/
theorem wheel_zoom_in_effect_witness :
    (onWheel testEnv 1 1 (-1) testState).targetX = testState.targetX
    ∧ (onWheel testEnv 1 1 (-1) testState).zoomVelocity
        = testState.zoomVelocity + CONFIG.zoomStep * testState.zoom :=
  ⟨((wheel_zoom_in_effect testEnv 1 1 (-1) testState (by norm_num)).1
      (by norm_num [testEnv]) (by norm_num [testEnv])
      (by norm_num [testEnv]) (by norm_num [testEnv])).1,
   (wheel_zoom_in_effect testEnv 1 1 (-1) testState (by norm_num)).2.2.1⟩

/-- Claim C9: after every updateAutoZoom call with auto-zoom enabled and
no drag active, targetZoom lies within the configured auto-zoom bounds;
and whenever the current zoom is at or beyond a bound while the smoothed
zoom direction still points toward that bound, the target zoom direction
is negated on that call. -/
theorem auto_zoom_bounds_and_flip (env : Env) (o : FrameOracle) (s : CamState)
    (hd : s.isDragging = false) :
    (CONFIG.autoZoomMinLevel ≤ (updateAutoZoom env o s).targetZoom
      ∧ (updateAutoZoom env o s).targetZoom ≤ CONFIG.autoZoomMaxLevel)
    ∧ (((CONFIG.autoZoomMaxLevel ≤ s.zoom ∧ 0 < azSmoothedDir o s)
        ∨ (s.zoom ≤ CONFIG.autoZoomMinLevel ∧ azSmoothedDir o s < 0)) →
       (updateAutoZoom env o s).targetAutoZoomDirection = -azRandTarget o s) := by
  unfold updateAutoZoom
  rw [if_neg (by simp [hd, CONFIG])]
  refine ⟨⟨le_max_left _ _, max_le (by norm_num [CONFIG]) (min_le_left _ _)⟩, fun hflip => ?_⟩
  show (if (CONFIG.autoZoomMaxLevel ≤ s.zoom ∧ 0 < azSmoothedDir o s)
        ∨ (s.zoom ≤ CONFIG.autoZoomMinLevel ∧ azSmoothedDir o s < 0)
      then -azRandTarget o s else azRandTarget o s) = -azRandTarget o s
  rw [if_pos hflip]

/-- Witness for claim C9 at a concrete non-dragging state. -/
theorem auto_zoom_bounds_and_flip_witness :
    CONFIG.autoZoomMinLevel ≤ (updateAutoZoom testEnv testOracle testState).targetZoom
    ∧ (updateAutoZoom testEnv testOracle testState).targetZoom ≤ CONFIG.autoZoomMaxLevel :=
  (auto_zoom_bounds_and_flip testEnv testOracle testState rfl).1

unseal Rat.add Rat.mul Rat.inv Rat.ofScientific Rat.sub in
/-- Claim C6: the overlay plane's opacity is 1 for zoom ≤ 4, 0 for
zoom ≥ 12, the linear interpolation 1 − (zoom − 4)/8 in between (0.5 at
the midpoint zoom 8), and the plane is marked not-visible exactly when
the computed opacity is at most 0.001. -/
theorem overlay_fade (z : ℚ) :
    (z ≤ 4 → (overlayPlaneUpdate z).1 = 1)
    ∧ (12 ≤ z → (overlayPlaneUpdate z).1 = 0)
    ∧ (4 ≤ z → z ≤ 12 → (overlayPlaneUpdate z).1 = 1 - (z - 4) / 8)
    ∧ (overlayPlaneUpdate 8).1 = 1 / 2
    ∧ ((overlayPlaneUpdate z).2 = false ↔ (overlayPlaneUpdate z).1 ≤ 0.001) := by
  have h4 : CONFIG.texturePlaneFadeStartZoom = (4 : ℚ) := by norm_num [CONFIG]
  have h12 : CONFIG.texturePlaneFadeEndZoom = (12 : ℚ) := by norm_num [CONFIG]
  refine ⟨?_, ?_, ?_, by decide, ?_⟩
  · intro hz
    simp only [overlayPlaneUpdate, h4, h12]
    by_cases h : z < 4
    · rw [if_pos h]
    · have hz4 : z = 4 := le_antisymm hz (not_lt.mp h)
      subst hz4
      decide
  · intro hz
    simp only [overlayPlaneUpdate, h4, h12]
    rw [if_neg (by linarith : ¬z < 4)]
    by_cases h : 12 < z
    · rw [if_pos h]
    · have hz12 : z = 12 := le_antisymm (not_lt.mp h) hz
      subst hz12
      decide
  · intro hz1 hz2
    simp only [overlayPlaneUpdate, h4, h12]
    rw [if_neg (by linarith : ¬z < 4), if_neg (by linarith : ¬(12 : ℚ) < z)]
    have h8 : (12 : ℚ) - 4 = 8 := by norm_num
    rw [h8]
    have hle1 : 1 - (z - 4) / 8 ≤ 1 := by
      have := div_nonneg (by linarith : (0 : ℚ) ≤ z - 4) (by norm_num : (0 : ℚ) ≤ 8)
      linarith
    have hge0 : (0 : ℚ) ≤ 1 - (z - 4) / 8 := by
      have := (div_le_one (by norm_num : (0 : ℚ) < 8)).mpr (by linarith : z - 4 ≤ 8)
      linarith
    show max 0 (min 1 (1 - (z - 4) / 8)) = 1 - (z - 4) / 8
    rw [min_eq_right hle1, max_eq_right hge0]
  · simp only [overlayPlaneUpdate, h4, h12]
    by_cases h1 : z < 4
    · rw [if_pos h1]
      norm_num
    · rw [if_neg h1]
      by_cases h2 : 12 < z
      · rw [if_pos h2]
        norm_num
      · rw [if_neg h2]
        show decide (0.001 < max 0 (min 1 _)) = false ↔ max 0 (min 1 _) ≤ 0.001
        simp only [decide_eq_false_iff_not, not_lt]

unseal Rat.add Rat.mul Rat.inv Rat.ofScientific Rat.sub in
/-- Witness for claim C6 at the midpoint zoom 8. -/
theorem overlay_fade_witness :
    ((4 : ℚ) ≤ 8 ∧ (8 : ℚ) ≤ 12) ∧ (overlayPlaneUpdate 8).1 = 1 - ((8 : ℚ) - 4) / 8 :=
  ⟨⟨by decide, by decide⟩, (overlay_fade 8).2.2.1 (by decide) (by decide)⟩

/-- Claim C7: the shader's displacementFactor is exactly
clamp((zoom − displacementStartZoom)/(displacementFullZoom −
displacementStartZoom), 0, 1): zero for zoom at or below the start zoom,
one for zoom at or beyond the full zoom, and linear in between. -/
theorem displacement_factor_ramp (u : Uniforms)
    (h : u.displacementStartZoom < u.displacementFullZoom) :
    displacementFactor u
      = glslClamp ((u.cameraZoom - u.displacementStartZoom)
          / (u.displacementFullZoom - u.displacementStartZoom)) 0 1
    ∧ (u.cameraZoom ≤ u.displacementStartZoom → displacementFactor u = 0)
    ∧ (u.displacementFullZoom ≤ u.cameraZoom → displacementFactor u = 1)
    ∧ (u.displacementStartZoom ≤ u.cameraZoom → u.cameraZoom ≤ u.displacementFullZoom →
        displacementFactor u
          = (u.cameraZoom - u.displacementStartZoom)
              / (u.displacementFullZoom - u.displacementStartZoom)) := by
  have hd : (0 : ℚ) < u.displacementFullZoom - u.displacementStartZoom := by linarith
  refine ⟨rfl, ?_, ?_, ?_⟩
  · intro hz
    have hr : (u.cameraZoom - u.displacementStartZoom)
        / (u.displacementFullZoom - u.displacementStartZoom) ≤ 0 := by
      rw [div_nonpos_iff]
      right
      exact ⟨by linarith, by linarith⟩
    show min (max _ 0) 1 = 0
    rw [max_eq_right hr]
    exact min_eq_left (by norm_num)
  · intro hz
    have hr : 1 ≤ (u.cameraZoom - u.displacementStartZoom)
        / (u.displacementFullZoom - u.displacementStartZoom) :=
      (one_le_div hd).mpr (by linarith)
    show min (max _ 0) 1 = 1
    rw [max_eq_left (le_trans zero_le_one hr)]
    exact min_eq_right hr
  · intro h1 h2
    have hr0 : (0 : ℚ) ≤ (u.cameraZoom - u.displacementStartZoom)
        / (u.displacementFullZoom - u.displacementStartZoom) :=
      div_nonneg (by linarith) (le_of_lt hd)
    have hr1 : (u.cameraZoom - u.displacementStartZoom)
        / (u.displacementFullZoom - u.displacementStartZoom) ≤ 1 :=
      (div_le_one hd).mpr (by linarith)
    show min (max _ 0) 1 = _
    rw [max_eq_left hr0]
    exact min_eq_left hr1

unseal Rat.add Rat.mul Rat.inv Rat.ofScientific Rat.sub in
/-- Witness for claim C7 at zoom 2 with start 5 and full 1000. -/
theorem displacement_factor_ramp_witness :
    (testUniforms.displacementStartZoom < testUniforms.displacementFullZoom
      ∧ testUniforms.cameraZoom ≤ testUniforms.displacementStartZoom)
    ∧ displacementFactor testUniforms = 0 :=
  ⟨⟨by decide, by decide⟩,
   (displacement_factor_ramp testUniforms (by decide)).2.1 (by decide)⟩

/-- Claim C3: for fixed screen, plane and image dimensions, the shader's
sampling rate is non-decreasing in zoom at or above minZoom, and equals
exactly 1 whenever the visible-pixel estimate is at least the total
sample count. -/
theorem sampling_rate_monotone (u : Uniforms) (z1 z2 : ℚ)
    (hpw : 0 < u.planeWidth) (hph : 0 < u.planeHeight)
    (hsw : 0 < u.screenWidth) (hsh : 0 < u.screenHeight)
    (htp : 0 < totalPoints u)
    (hz1 : CONFIG.minZoom ≤ z1) (h12 : z1 ≤ z2) :
    samplingRate { u with cameraZoom := z1 } ≤ samplingRate { u with cameraZoom := z2 }
    ∧ (totalPoints u ≤ visiblePixels u → samplingRate u = 1) := by
  have hz0 : (0 : ℚ) ≤ z1 := le_trans (by norm_num [CONFIG]) hz1
  constructor
  · have hv : visiblePixels { u with cameraZoom := z1 }
        ≤ visiblePixels { u with cameraZoom := z2 } := by
      show u.planeWidth * u.planeHeight * z1 * z1 * u.screenWidth * u.screenHeight / 4
          ≤ u.planeWidth * u.planeHeight * z2 * z2 * u.screenWidth * u.screenHeight / 4
      have hzz : z1 * z1 ≤ z2 * z2 := mul_self_le_mul_self hz0 h12
      have hK : (0 : ℚ) ≤ u.planeWidth * u.planeHeight := mul_nonneg hpw.le hph.le
      have hS : (0 : ℚ) ≤ u.screenWidth * u.screenHeight := mul_nonneg hsw.le hsh.le
      have hmain : u.planeWidth * u.planeHeight * (z1 * z1)
            * (u.screenWidth * u.screenHeight)
          ≤ u.planeWidth * u.planeHeight * (z2 * z2)
            * (u.screenWidth * u.screenHeight) :=
        mul_le_mul_of_nonneg_right (mul_le_mul_of_nonneg_left hzz hK) hS
      have h4 : (0 : ℚ) < 4 := by norm_num
      calc u.planeWidth * u.planeHeight * z1 * z1 * u.screenWidth * u.screenHeight / 4
          = u.planeWidth * u.planeHeight * (z1 * z1)
              * (u.screenWidth * u.screenHeight) / 4 := by ring
        _ ≤ u.planeWidth * u.planeHeight * (z2 * z2)
              * (u.screenWidth * u.screenHeight) / 4 :=
            (div_le_div_iff_of_pos_right h4).mpr hmain
        _ = u.planeWidth * u.planeHeight * z2 * z2
              * u.screenWidth * u.screenHeight / 4 := by ring
    show min 1 (visiblePixels { u with cameraZoom := z1 } / (u.imageWidth * u.imageHeight))
        ≤ min 1 (visiblePixels { u with cameraZoom := z2 } / (u.imageWidth * u.imageHeight))
    exact min_le_min le_rfl ((div_le_div_iff_of_pos_right htp).mpr hv)
  · intro hge
    have h1le : 1 ≤ visiblePixels u / totalPoints u := (one_le_div htp).mpr hge
    exact min_eq_left h1le

unseal Rat.add Rat.mul Rat.inv Rat.ofScientific Rat.sub in
/-- Witness for claim C3 on unit dimensions with zooms 1 and 2. -/
theorem sampling_rate_monotone_witness :
    samplingRate { testUniforms with cameraZoom := 1 }
      ≤ samplingRate { testUniforms with cameraZoom := 2 }
    ∧ (totalPoints testUniforms ≤ visiblePixels testUniforms
        → samplingRate testUniforms = 1) :=
  sampling_rate_monotone testUniforms 1 2 (by decide) (by decide) (by decide)
    (by decide) (by decide) (by decide) (by decide)

/-- Claim C8: the per-point hash is a pure function of the UV and the
seed: with equal seeds it returns the same value under any two uniform
assignments, so the derived visibility decision (given an equal sampling
rate), displacement direction, and jitter phase coincide across frames. -/
theorem random_hash_pure (sinQ : ℚ → ℚ) (u1 u2 : Uniforms) (uv p : ℚ × ℚ)
    (hs : u1.seed = u2.seed) :
    random sinQ u1.seed uv = random sinQ u2.seed uv
    ∧ pointId sinQ u1 uv = pointId sinQ u2 uv
    ∧ dispRandX sinQ u1 p = dispRandX sinQ u2 p
    ∧ dispRandY sinQ u1 p = dispRandY sinQ u2 p
    ∧ jitterPhase sinQ u1 p = jitterPhase sinQ u2 p
    ∧ (samplingRate u1 = samplingRate u2 →
        pointDiscarded sinQ u1 uv = pointDiscarded sinQ u2 uv) := by
  refine ⟨by rw [hs], by unfold pointId; rw [hs], by unfold dispRandX; rw [hs],
    by unfold dispRandY; rw [hs], by unfold jitterPhase; rw [hs], fun hr => ?_⟩
  unfold pointDiscarded pointId
  rw [hs, hr]

/-- Witness for claim C8: two frames differing only in time agree on the
hash of a fixed UV. -/
theorem random_hash_pure_witness :
    pointId (fun x => x) testUniforms (0, 0)
      = pointId (fun x => x) { testUniforms with time := 1 } (0, 0) :=
  (random_hash_pure (fun x => x) testUniforms { testUniforms with time := 1 }
    (0, 0) (0, 0) rfl).2.1

/-- Claim C10: the displacement jitter perturbs only the x and y
components of a sample's world position; for every mesh sample (built at
z = 0) that is not culled, the displaced position stays exactly on the
z = 0 plane, for every uniform assignment. -/
theorem displacement_preserves_plane (sinQ : ℚ → ℚ) (u : Uniforms) (p : Vec3)
    (imgW imgH planeW : ℚ) (ix iy : ℕ)
    (hc : pointDiscarded sinQ u (sampleUv imgW imgH ix iy) = false) :
    (displacedPosition sinQ u p).z = p.z
    ∧ (displacedPosition sinQ u (samplePosition imgW imgH planeW ix iy)).z = 0 := by
  constructor
  · show p.z + 0 = p.z
    exact add_zero p.z
  · show (samplePosition imgW imgH planeW ix iy).z + 0 = 0
    rw [add_zero]
    rfl

unseal Rat.add Rat.mul Rat.inv Rat.ofScientific Rat.sub in
/-- Witness for claim C10 at a concrete non-culled sample. -/
theorem displacement_preserves_plane_witness :
    pointDiscarded (fun _ => 0) testUniforms (sampleUv 1 1 0 0) = false
    ∧ (displacedPosition (fun _ => 0) testUniforms (samplePosition 1 1 1 0 0)).z = 0 :=
  ⟨by decide,
   (displacement_preserves_plane (fun _ => 0) testUniforms ⟨0, 0, 0⟩ 1 1 1 0 0 (by decide)).2⟩

unseal Rat.add Rat.mul Rat.inv Rat.ofScientific Rat.sub in
/-- Claim C2 fails as stated: at zoom 210 the CPU-side boost value is
-0.05 · (10 − 210)/5 · (−1) = 2, the shader clamps it to 1, and the
impact on a black sample is 1, not the claimed (1−0)⁴ · 2 = 2, so the
blended color is white rather than the claimed extrapolation past
white. -/
theorem brightness_boost_counterexample :
    shaderImpact boostCounterUniforms 0 0 0
      ≠ (1 - shaderBrightness 0 0 0) ^ boostCounterUniforms.brightnessSteepness
          * brightnessBoostValue 210
    ∧ shaderBlendedColor boostCounterUniforms 0 0 0
      ≠ (glslMix 0 1 ((1 - shaderBrightness 0 0 0) ^ (4 : ℕ) * brightnessBoostValue 210),
         glslMix 0 1 ((1 - shaderBrightness 0 0 0) ^ (4 : ℕ) * brightnessBoostValue 210),
         glslMix 0 1 ((1 - shaderBrightness 0 0 0) ^ (4 : ℕ) * brightnessBoostValue 210)) := by
  refine ⟨by decide, by decide⟩

/-- Claim C2 (amended): the per-frame boost factor is zero at or below
brightnessBoostStartZoom and otherwise the linear ramp toward
maxZoomForSizeTransition capped at 1; the pushed boost value is
brightnessBoost · boostFactor; and the shader blends every sample color
toward white with impact (1 − brightness)^brightnessSteepness times the
boost value clamped to [0, 1]. -/
theorem brightness_boost_blend (u : Uniforms) (z r g b : ℚ)
    (hb : u.brightnessBoost = brightnessBoostValue z) :
    (z ≤ CONFIG.brightnessBoostStartZoom → boostFactor z = 0)
    ∧ (CONFIG.brightnessBoostStartZoom < z →
        boostFactor z
          = min 1 ((z - CONFIG.brightnessBoostStartZoom)
              / (CONFIG.maxZoomForSizeTransition - CONFIG.brightnessBoostStartZoom)))
    ∧ boostFactor z ≤ 1
    ∧ brightnessBoostValue z = CONFIG.brightnessBoost * boostFactor z
    ∧ shaderBlendedColor u r g b
        = (r + (1 - r) * ((1 - shaderBrightness r g b) ^ u.brightnessSteepness
              * min 1 (max 0 (brightnessBoostValue z))),
           g + (1 - g) * ((1 - shaderBrightness r g b) ^ u.brightnessSteepness
              * min 1 (max 0 (brightnessBoostValue z))),
           b + (1 - b) * ((1 - shaderBrightness r g b) ^ u.brightnessSteepness
              * min 1 (max 0 (brightnessBoostValue z)))) := by
  refine ⟨?_, ?_, ?_, rfl, ?_⟩
  · intro hz
    unfold boostFactor
    rw [if_neg (not_lt.mpr hz)]
  · intro hz
    unfold boostFactor
    rw [if_pos hz]
  · unfold boostFactor
    split
    · exact min_le_left _ _
    · norm_num
  · have hcl : glslClamp (brightnessBoostValue z) 0 1
        = min 1 (max 0 (brightnessBoostValue z)) := by
      unfold glslClamp
      rw [min_comm, max_comm]
    simp only [shaderBlendedColor, shaderImpact, glslMix]
    rw [hb, hcl]
    refine congrArg₂ Prod.mk ?_ (congrArg₂ Prod.mk ?_ ?_) <;> ring

unseal Rat.add Rat.mul Rat.inv Rat.ofScientific Rat.sub in
/-- Witness for claim C2 (amended) at zoom 2, below the boost start. -/
theorem brightness_boost_blend_witness :
    ((2 : ℚ) ≤ CONFIG.brightnessBoostStartZoom ∧ boostFactor 2 = 0)
    ∧ brightnessBoostValue 2 = CONFIG.brightnessBoost * boostFactor 2 :=
  ⟨⟨by decide,
    (brightness_boost_blend boostWitnessUniforms 2 0 0 0 rfl).1 (by decide)⟩,
   (brightness_boost_blend boostWitnessUniforms 2 0 0 0 rfl).2.2.2.1⟩
